import Mathlib

/-!
# StructuredList (packages/react/src/components/StructuredList/StructuredList.js)

A shallow embedding of the StructuredList view components.  Every component is
a function from its props (and, where it reads them, the React state and
context values, passed explicitly) to the element it returns.  An element is
its tag together with its JSX attributes in source order.

Conventions of the embedding:

* props with `PropTypes.string` are `Option String` (`none` is "not supplied"),
  props with `PropTypes.bool` are arbitrary `JSVal`s read through truthiness,
  as the source does;
* `other` is the rest object of the destructuring: the caller's remaining
  attributes, from which the destructured keys are removed (`objectRest`);
* `usePrefix()` and `useId()` live outside these sources; their results are
  parameters (`Prefix`, the `id` of a row, the `defaultId` of an input);
* `children` are handed through unchanged by every component and are left out
  of the elements; the context a row provides to its inputs is an argument.
-/

namespace Carbon

/-! ## JavaScript values -/

/-- JavaScript values that reach the components: primitives, functions supplied
by the caller (told apart by a name), and the three arrow functions the
components create themselves. -/
inductive JSVal where
  | undefined
  | null
  | bool (b : Bool)
  | num (n : Int)
  | str (s : String)
  /-- A function supplied by the caller. -/
  | fn (name : String)
  /-- The row handler `() => setSelectedRow(id)`. -/
  | selectRow (id : String)
  /-- The row handlers `() => { setHasFocusWithin(b); }`. -/
  | setFocusWithin (b : Bool)
  /-- The input handler `(event) => { setSelectedRow(event.target.value); onChange(event); }`,
  closed over the `onChange` prop. -/
  | inputChange (onChange : JSVal)
  deriving DecidableEq, Repr

namespace JSVal

/-- JavaScript truthiness (`ToBoolean`). -/
def truthy : JSVal → Bool
  | undefined => false
  | null => false
  | bool b => b
  | num n => n != 0
  | str s => s != ""
  | fn _ => true
  | selectRow _ => true
  | setFocusWithin _ => true
  | inputChange _ => true

/-- The operator `a || b`. -/
def or (a b : JSVal) : JSVal := if a.truthy then a else b

/-- The operator `a && b`. -/
def and (a b : JSVal) : JSVal := if a.truthy then b else a

/-- The operator `!a`. -/
def not (a : JSVal) : JSVal := bool (!a.truthy)

/-- The operator `a ?? b`. -/
def nullish (a b : JSVal) : JSVal :=
  match a with
  | undefined => b
  | null => b
  | v => v

/-- The operator `a === b` on the values of this embedding. -/
def strictEq (a b : JSVal) : Bool := decide (a = b)

/-- A `PropTypes.string` prop as a value: `undefined` when not supplied. -/
def ofString? : Option String → JSVal
  | none => undefined
  | some s => str s

/-- How `defaultProps` fills a prop: only when the caller left it `undefined`. -/
def withDefault (v d : JSVal) : JSVal := if v = undefined then d else v

end JSVal

open JSVal

/-! ## Class strings and class lists -/

/-- ASCII whitespace, the separators of a `class` attribute. -/
def isSpace (c : Char) : Bool :=
  c == ' ' || c == Char.ofNat 9 || c == Char.ofNat 10 || c == Char.ofNat 12 || c == Char.ofNat 13

/-- The class list of a `class` attribute value: its whitespace-separated,
non-empty tokens. -/
def classList (s : String) : List String :=
  ((s.data.splitOnP isSpace).filter (fun t => !t.isEmpty)).map String.mk

/-- `Array.prototype.join(' ')` on strings. -/
def joinSpace : List String → String
  | [] => ""
  | [s] => s
  | s :: t :: r => s ++ " " ++ joinSpace (t :: r)

/-- An argument of `classNames`: a plain value or an object literal (its
entries in insertion order). -/
inductive ClassArg where
  | value (v : JSVal)
  | object (entries : List (String × JSVal))

/-- The classes one argument of `classNames` contributes: a truthy string or
number itself, the keys of an object whose values are truthy, nothing for any
other value. -/
def ClassArg.classes : ClassArg → List String
  | .value (.str s) => if s = "" then [] else [s]
  | .value (.num n) => if n = 0 then [] else [toString n]
  | .value _ => []
  | .object entries => (entries.filter (fun kv => kv.2.truthy)).map (fun kv => kv.1)

/-- The `classnames` package: collect the classes of every argument and join
them with single spaces. -/
def classNames (args : List ClassArg) : String :=
  joinSpace (args.flatMap ClassArg.classes)

/-- The class prefix returned by `usePrefix()` (defined outside these sources,
`cds` unless configured).  It is the leading part of class names, so it holds
no whitespace. -/
structure Prefix where
  val : String
  noSpace : val.data.all (fun c => !isSpace c) = true

/-- The class name `${prefix}<suffix>`. -/
def Prefix.cls (pfx : Prefix) (suffix : String) : String := pfx.val ++ suffix

/-- The default prefix. -/
def cds : Prefix := ⟨"cds", by decide⟩

/-! ## Elements -/

/-- JSX attributes in source order. -/
abbrev Attrs := List (String × JSVal)

/-- A React element: its tag and its attributes in source order.  When a key
occurs more than once (through a spread) the last occurrence wins. -/
structure Element where
  type : String
  props : Attrs
  deriving DecidableEq, Repr

/-- The value a key has on the element (`undefined` when absent). -/
def Element.attr (e : Element) (key : String) : JSVal :=
  match e.props.reverse.find? (fun kv => kv.1 == key) with
  | some kv => kv.2
  | none => undefined

/-- The class list of the element, read off its `className`. -/
def Element.classList (e : Element) : List String :=
  match e.attr "className" with
  | .str s => Carbon.classList s
  | _ => []

/-- Whether the element carries the class `c`. -/
def Element.hasClass (e : Element) (c : String) : Bool := decide (c ∈ e.classList)

/-- The rest object `...other` of a destructuring that binds `keys`: the
caller's remaining attributes, none of them under a destructured key. -/
def objectRest (keys : List String) (attrs : Attrs) : Attrs :=
  attrs.filter (fun kv => !keys.contains kv.1)

/-! ## StructuredListWrapper -/

/-- The props of `StructuredListWrapper` as the caller supplies them.
`aria_label` is the prop `'aria-label'`, `ariaLabel` its deprecated spelling. -/
structure WrapperProps where
  selection : JSVal := .undefined
  className : Option String := none
  aria_label : Option String := none
  ariaLabel : Option String := none
  isCondensed : JSVal := .undefined
  isFlush : JSVal := .undefined
  other : Attrs := []
  deriving DecidableEq, Repr

/-- `StructuredListWrapper.defaultProps`. -/
def StructuredListWrapper.defaultProps (props : WrapperProps) : WrapperProps :=
  { props with
    selection := props.selection.withDefault (.bool false)
    isCondensed := props.isCondensed.withDefault (.bool false)
    isFlush := props.isFlush.withDefault (.bool false)
    aria_label := match props.aria_label with
      | none => some "Structured list section"
      | some l => some l }

/-- The initial value of the `selectedRow` state: `React.useState(null)`. -/
def initialSelectedRow : JSVal := .null

/-- The root `div` that `StructuredListWrapper` returns (inside the two context
providers, which carry `selectedRow` and `setSelectedRow` to the rows). -/
def StructuredListWrapper (pfx : Prefix) (props : WrapperProps) : Element :=
  let props := StructuredListWrapper.defaultProps props
  let other := objectRest
    ["children", "selection", "className", "aria-label", "ariaLabel", "isCondensed", "isFlush"]
    props.other
  let classes := classNames
    [ .value (.str (pfx.cls "--structured-list")),
      .value (.ofString? props.className),
      .object
        [ (pfx.cls "--structured-list--selection", props.selection),
          (pfx.cls "--structured-list--condensed", props.isCondensed),
          (pfx.cls "--structured-list--flush", props.isFlush.and props.selection.not) ] ]
  { type := "div"
    props :=
      [("role", .str "table"), ("className", .str classes)] ++ other ++
      [("aria-label", (JSVal.ofString? props.ariaLabel).or (.ofString? props.aria_label))] }

/-! ## StructuredListCell -/

/-- The props of `StructuredListCell` as the caller supplies them. -/
structure CellProps where
  className : Option String := none
  head : JSVal := .undefined
  noWrap : JSVal := .undefined
  other : Attrs := []
  deriving DecidableEq, Repr

/-- `StructuredListCell.defaultProps`. -/
def StructuredListCell.defaultProps (props : CellProps) : CellProps :=
  { props with
    head := props.head.withDefault (.bool false)
    noWrap := props.noWrap.withDefault (.bool false) }

/-- The element `StructuredListCell` returns. -/
def StructuredListCell (pfx : Prefix) (props : CellProps) : Element :=
  let props := StructuredListCell.defaultProps props
  let other := objectRest ["children", "className", "head", "noWrap"] props.other
  let classes := classNames
    [ .value (.ofString? props.className),
      .object
        [ (pfx.cls "--structured-list-th", props.head),
          (pfx.cls "--structured-list-td", props.head.not),
          (pfx.cls "--structured-list-content--nowrap", props.noWrap) ] ]
  if props.head.truthy then
    { type := "span"
      props := [("className", .str classes), ("role", .str "columnheader")] ++ other }
  else
    { type := "div"
      props := [("className", .str classes), ("role", .str "cell")] ++ other }

/-! ## StructuredListRow -/

/-- The props of `StructuredListRow` as the caller supplies them. -/
structure RowProps where
  onKeyDown : JSVal := .undefined
  className : Option String := none
  head : JSVal := .undefined
  other : Attrs := []
  deriving DecidableEq, Repr

/-- `StructuredListRow.defaultProps`; the default `onKeyDown` is `() => {}`. -/
def StructuredListRow.defaultProps (props : RowProps) : RowProps :=
  { props with
    head := props.head.withDefault (.bool false)
    onKeyDown := props.onKeyDown.withDefault (.fn "() => \x7b\x7d") }

/-- The class a selected row carries. -/
def selectedClass (pfx : Prefix) : String := pfx.cls "--structured-list-row--selected"

/-- The element `StructuredListRow` returns, given its generated `id`
(`useId('grid-input')`), its `hasFocusWithin` state and the `selectedRow` it
reads from the wrapper's context.  A non-head row also provides `{ id }` to the
inputs below it. -/
def StructuredListRow (pfx : Prefix) (id : String) (hasFocusWithin : Bool)
    (selectedRow : JSVal) (props : RowProps) : Element :=
  let props := StructuredListRow.defaultProps props
  let other := objectRest ["onKeyDown", "children", "className", "head"] props.other
  let classes := classNames
    [ .value (.str (pfx.cls "--structured-list-row")),
      .value (.ofString? props.className),
      .object
        [ (pfx.cls "--structured-list-row--header-row", props.head),
          (pfx.cls "--structured-list-row--focused-within", .bool hasFocusWithin),
          (selectedClass pfx, .bool (selectedRow.strictEq (.str id))) ] ]
  if props.head.truthy then
    { type := "div"
      props := [("role", .str "row")] ++ other ++ [("className", .str classes)] }
  else
    { type := "div"
      props := other ++
        [ ("role", .str "row"),
          ("className", .str classes),
          ("onClick", .selectRow id),
          ("onFocus", .setFocusWithin true),
          ("onBlur", .setFocusWithin false),
          ("onKeyDown", props.onKeyDown) ] }

/-- The value a row provides on `GridRowContext`: `{ id }` below a non-head row,
the context default `null` (here `none`) otherwise. -/
def StructuredListRow.context (id : String) (props : RowProps) : Option String :=
  if (StructuredListRow.defaultProps props).head.truthy then none else some id

/-! ## StructuredListInput -/

/-- The props of `StructuredListInput` as the caller supplies them. -/
structure InputProps where
  className : Option String := none
  name : Option String := none
  title : Option String := none
  id : Option String := none
  onChange : JSVal := .undefined
  other : Attrs := []
  deriving DecidableEq, Repr

/-- `StructuredListInput.defaultProps`: only `title` has a default. -/
def StructuredListInput.defaultProps (props : InputProps) : InputProps :=
  { props with
    title := match props.title with
      | none => some "title"
      | some t => some t }

/-- The `input` that `StructuredListInput` returns, given its generated
`defaultId` (`useId('structureListInput')`), the `row` it reads from
`GridRowContext` (`none` for `null`, `some id` for `{ id }`) and the
`selectedRow` of the wrapper.  `checked` is `row && row.id === selectedRow`,
`value` is `row?.id ?? ''`. -/
def StructuredListInput (pfx : Prefix) (defaultId : String) (row : Option String)
    (selectedRow : JSVal) (props : InputProps) : Element :=
  let props := StructuredListInput.defaultProps props
  let name := match props.name with
    | none => "structured-list-input-" ++ defaultId
    | some n => n
  let other := objectRest ["className", "name", "title", "id", "onChange"] props.other
  let classes := classNames
    [ .value (.str (pfx.cls "--structured-list-input")),
      .value (.str (pfx.cls "--visually-hidden")),
      .value (.ofString? props.className) ]
  let checked : JSVal := match row with
    | none => .null
    | some id => .bool ((JSVal.str id).strictEq selectedRow)
  let value : JSVal := match row with
    | none => .str ""
    | some id => .str id
  { type := "input"
    props := other ++
      [ ("type", .str "radio"),
        ("tabIndex", .num 0),
        ("checked", checked),
        ("value", value),
        ("onChange", .inputChange props.onChange),
        ("id", (JSVal.ofString? props.id).nullish (.str defaultId)),
        ("className", .str classes),
        ("name", .str name),
        ("title", .ofString? props.title) ] }

/-! ## Event handlers -/

/-- A change event, as far as the handler reads it: `event.target.value`. -/
structure ChangeEvent where
  targetValue : String
  deriving DecidableEq, Repr

/-- What a handler does, in order: state updates and calls of other functions. -/
inductive Effect where
  | setSelectedRow (v : JSVal)
  | call (f : JSVal) (event : ChangeEvent)
  deriving DecidableEq, Repr

/-- Whether a value can be called (`typeof v === 'function'`). -/
def JSVal.callable : JSVal → Bool
  | .fn _ => true
  | .selectRow _ => true
  | .setFocusWithin _ => true
  | .inputChange _ => true
  | _ => false

/-- The `onChange` handler of the `input` that `StructuredListInput` renders:
`(event) => { setSelectedRow(event.target.value); onChange(event); }`, where
`onChange` is the prop as destructured (after `defaultProps`, which has no
entry for it).  It returns the effects performed, in order, and whether the
handler completed or threw.  Calling a value that is not a function throws a
`TypeError`. -/
def StructuredListInput.handleChange (props : InputProps) (event : ChangeEvent) :
    List Effect × Except String Unit :=
  let props := StructuredListInput.defaultProps props
  let effects := [Effect.setSelectedRow (.str event.targetValue)]
  if props.onChange.callable then
    (effects ++ [Effect.call props.onChange event], .ok ())
  else
    (effects, .error "TypeError: onChange is not a function")

/-! ## A mounted list -/

/-- One `StructuredListRow` of a mounted list: its generated id, its props and
its `hasFocusWithin` state. -/
structure RowInst where
  id : String
  props : RowProps
  hasFocusWithin : Bool := false
  deriving DecidableEq, Repr

/-- A mounted list: the wrapper's props, its `selectedRow` state and its rows. -/
structure ListState where
  wrapper : WrapperProps
  selectedRow : JSVal
  rows : List RowInst
  deriving DecidableEq, Repr

/-- The list right after mounting: `selectedRow` is `null`, no row has focus. -/
def mount (wrapper : WrapperProps) (rows : List (String × RowProps)) : ListState :=
  { wrapper := wrapper
    selectedRow := initialSelectedRow
    rows := rows.map (fun r => { id := r.1, props := r.2, hasFocusWithin := false }) }

/-- The element of one row in the current state. -/
def ListState.renderRow (pfx : Prefix) (s : ListState) (r : RowInst) : Element :=
  StructuredListRow pfx r.id r.hasFocusWithin s.selectedRow r.props

/-- The elements of all rows in the current state. -/
def ListState.renderRows (pfx : Prefix) (s : ListState) : List Element :=
  s.rows.map (s.renderRow pfx)

/-- How many rows carry the selected class. -/
def ListState.selectedCount (pfx : Prefix) (s : ListState) : Nat :=
  ((s.renderRows pfx).filter (fun e => e.hasClass (selectedClass pfx))).length

/-- User events on a mounted list.  Rows are addressed by position.  A
`change` happens on a `StructuredListInput` with the given props and carries
`event.target.value`. -/
inductive Event where
  | click (row : Nat)
  | focus (row : Nat)
  | blur (row : Nat)
  | change (input : InputProps) (event : ChangeEvent)
  deriving DecidableEq, Repr

/-- One effect of a handler applied to the state.  A called function of the
caller has no access to the state of the list. -/
def ListState.applyEffect (s : ListState) : Effect → ListState
  | .setSelectedRow v => { s with selectedRow := v }
  | .call _ _ => s

/-- Run the handler found under an event attribute of row `i`. -/
def ListState.runRowHandler (s : ListState) (i : Nat) (handler : JSVal) : ListState :=
  match handler with
  | .selectRow id => s.applyEffect (.setSelectedRow (.str id))
  | .setFocusWithin b =>
    { s with rows := s.rows.modify (fun r => { r with hasFocusWithin := b }) i }
  | _ => s

/-- One event.  A row event runs whatever handler the rendered row has under
the matching attribute; a change event runs the input handler, whose state
updates take effect whether or not it throws afterwards. -/
def step (pfx : Prefix) (s : ListState) : Event → ListState
  | .click i =>
    match s.rows[i]? with
    | none => s
    | some r => s.runRowHandler i ((s.renderRow pfx r).attr "onClick")
  | .focus i =>
    match s.rows[i]? with
    | none => s
    | some r => s.runRowHandler i ((s.renderRow pfx r).attr "onFocus")
  | .blur i =>
    match s.rows[i]? with
    | none => s
    | some r => s.runRowHandler i ((s.renderRow pfx r).attr "onBlur")
  | .change input event =>
    (StructuredListInput.handleChange input event).1.foldl ListState.applyEffect s

/-- A sequence of events, first to last. -/
def run (pfx : Prefix) (s : ListState) (events : List Event) : ListState :=
  events.foldl (step pfx) s

/-! ## Concrete lists and props -/

/-- A wrapper whose caller passes `role="list"` along with the other attributes. -/
def roleListProps : WrapperProps := { other := [("role", .str "list")] }

/-- A wrapper with a test id, a class of the caller and the flush variant. -/
def flushProps : WrapperProps :=
  { className := some "my-list wide", isFlush := .bool true, other := [("data-testid", .str "list")] }

/-- A wrapper that is given both spellings of the label and, in addition, a
stray `aria-label` among the remaining attributes. -/
def labelledProps : WrapperProps :=
  { ariaLabel := some "Old label", aria_label := some "New label",
    other := [("aria-label", .str "stray")] }

/-- A header cell whose caller passes the body-cell class as `className`. -/
def headCellWithTdClass : CellProps :=
  { head := .bool true, className := some "cds--structured-list-td" }

/-- A header cell with a class of the caller and a test id. -/
def headCell : CellProps :=
  { head := .bool true, className := some "wide", other := [("data-testid", .str "cell")] }

/-- Two rows with distinct ids whose caller passes the selected class as
`className` on both. -/
def preselectedRows : List (String × RowProps) :=
  [ ("grid-input-1", { className := some "cds--structured-list-row--selected" }),
    ("grid-input-2", { className := some "cds--structured-list-row--selected" }) ]

/-- Two rows with distinct ids; the caller passes the selected class as
`className` on the second. -/
def secondRowStyledSelected : List (String × RowProps) :=
  [ ("grid-input-1", {}),
    ("grid-input-2", { className := some "cds--structured-list-row--selected" }) ]

/-- A header row and two plain rows. -/
def plainRows : List (String × RowProps) :=
  [ ("grid-input-0", { head := .bool true }),
    ("grid-input-1", {}),
    ("grid-input-2", { className := some "tall" }) ]

/-- A list whose wrapper is given no `selection` prop (so it is `false`), with
one plain row. -/
def listWithoutSelection : ListState := mount {} [("grid-input-1", {})]


/-- The ids and props of the rows, the part of the state no event changes. -/
def ListState.rowKeys (s : ListState) : List (String × RowProps) :=
  s.rows.map (fun r => (r.id, r.props))

/-- The list of `plainRows` after a click on its last row. -/
def listWithSecondSelected : ListState := run cds (mount {} plainRows) [.click 2]

/-! ## Class lists of joined class strings -/
theorem splitOnP_append_sep {α : Type} (p : α → Bool) (a b : List α) (c : α) (hc : p c = true) :
    (a ++ c :: b).splitOnP p = a.splitOnP p ++ b.splitOnP p := by
  induction a with
  | nil => simp [List.splitOnP_cons, hc, List.splitOnP_nil]
  | cons x a ih =>
    simp only [List.cons_append, List.splitOnP_cons, ih]
    by_cases hx : p x = true
    · simp [hx]
    · simp only [hx, if_false]
      cases h : List.splitOnP p a with
      | nil => exact absurd h (List.splitOnP_ne_nil p a)
      | cons y ys => rfl

theorem classList_append_space (a b : String) :
    classList (a ++ " " ++ b) = classList a ++ classList b := by
  have h : (a ++ " " ++ b).data = a.data ++ ' ' :: b.data := by
    simp [String.data_append]
  unfold classList
  rw [h, splitOnP_append_sep isSpace _ _ ' ' (by decide)]
  simp

theorem classList_empty : classList "" = [] := by decide

theorem classList_joinSpace (l : List String) :
    classList (joinSpace l) = l.flatMap classList := by
  induction l with
  | nil => simp [joinSpace, classList_empty]
  | cons s t ih =>
    cases t with
    | nil => simp [joinSpace]
    | cons u r =>
      rw [joinSpace, classList_append_space, ih]
      simp

theorem classList_single (s : String) (h : s.data.all (fun c => !isSpace c) = true)
    (hne : s ≠ "") : classList s = [s] := by
  have h1 : s.data.splitOnP isSpace = [s.data] := by
    apply List.splitOnP_eq_single
    intro x hx
    have := List.all_eq_true.mp h x hx
    simpa using this
  have h2 : s.data ≠ [] := by
    intro h0
    apply hne
    cases s
    simp_all
  have h3 : s.data.isEmpty = false := by
    cases hs : s.data with
    | nil => exact absurd hs h2
    | cons c cs => rfl
  unfold classList
  rw [h1]
  simp [List.filter, h3]

theorem Prefix.classList_cls (pfx : Prefix) (suffix : String)
    (h : suffix.data.all (fun c => !isSpace c) = true) (hne : suffix ≠ "") :
    classList (pfx.cls suffix) = [pfx.cls suffix] := by
  apply classList_single
  · simp only [Prefix.cls, String.data_append, List.all_append, pfx.noSpace, h, Bool.and_self]
  · intro h0
    apply hne
    have := congrArg String.data h0
    simp [Prefix.cls, String.data_append] at this
    cases suffix
    simp_all

theorem Prefix.cls_inj (pfx : Prefix) (a b : String) : pfx.cls a = pfx.cls b ↔ a = b := by
  constructor
  · intro h
    have := congrArg String.data h
    simp only [Prefix.cls, String.data_append, List.append_cancel_left_eq] at this
    exact String.ext this
  · intro h; rw [h]

/-! ## Attribute lookup -/
theorem objectRest_key_ne (keys : List String) (attrs : Attrs) (k : String) (hk : k ∈ keys) :
    ∀ kv ∈ objectRest keys attrs, kv.1 ≠ k := by
  intro kv hkv hEq
  simp only [objectRest, List.mem_filter] at hkv
  rw [hEq] at hkv
  simp [hk] at hkv

theorem Element.attr_append_left (t : String) (a b : Attrs) (k : String)
    (h : ∀ kv ∈ b, kv.1 ≠ k) :
    (Element.mk t (a ++ b)).attr k = (Element.mk t a).attr k := by
  have hb : b.reverse.find? (fun kv => kv.1 == k) = none := by
    rw [List.find?_eq_none]
    intro kv hkv
    simpa using h kv (List.mem_reverse.mp hkv)
  simp [Element.attr, List.reverse_append, List.find?_append, hb]

theorem Element.attr_append_right (t : String) (a b : Attrs) (k : String)
    (h : ∃ kv ∈ b, kv.1 = k) :
    (Element.mk t (a ++ b)).attr k = (Element.mk t b).attr k := by
  obtain ⟨kv, hkv, hk⟩ := h
  have hb : (b.reverse.find? (fun kv => kv.1 == k)).isSome = true := by
    rw [List.find?_isSome]
    exact ⟨kv, List.mem_reverse.mpr hkv, by simp [hk]⟩
  cases hf : b.reverse.find? (fun kv => kv.1 == k) with
  | none => simp [hf] at hb
  | some x => simp [Element.attr, List.reverse_append, List.find?_append, hf]

theorem mem_classList_classNames (c : String) (args : List ClassArg) :
    c ∈ classList (classNames args) ↔ ∃ arg ∈ args, ∃ k ∈ arg.classes, c ∈ classList k := by
  simp only [classNames, classList_joinSpace, List.mem_flatMap]
  constructor
  · rintro ⟨k, ⟨arg, harg, hk⟩, hc⟩
    exact ⟨arg, harg, k, hk, hc⟩
  · rintro ⟨arg, harg, k, hk, hc⟩
    exact ⟨k, ⟨arg, harg, hk⟩, hc⟩

theorem classes_ofString? (c : String) (cn : Option String) :
    (∃ k ∈ (ClassArg.value (.ofString? cn)).classes, c ∈ classList k) ↔
      c ∈ classList (cn.getD "") := by
  cases cn with
  | none => simp [JSVal.ofString?, ClassArg.classes, classList_empty]
  | some s =>
    by_cases hs : s = ""
    · simp [JSVal.ofString?, ClassArg.classes, hs, classList_empty]
    · simp [JSVal.ofString?, ClassArg.classes, hs]

theorem truthy_withDefault_false (v : JSVal) : (v.withDefault (.bool false)).truthy = v.truthy := by
  unfold JSVal.withDefault
  split
  · next h => rw [h]; rfl
  · rfl

/-! ## The class list of the wrapper -/
theorem truthy_and (a b : JSVal) : (a.and b).truthy = (a.truthy && b.truthy) := by
  unfold JSVal.and
  cases h : a.truthy <;> simp [h]

theorem truthy_not (a : JSVal) : a.not.truthy = !a.truthy := rfl

theorem Prefix.mem_classList_cls (pfx : Prefix) (suffix c : String)
    (h : suffix.data.all (fun c => !isSpace c) = true) (hne : suffix ≠ "") :
    c ∈ classList (pfx.cls suffix) ↔ c = pfx.cls suffix := by
  rw [pfx.classList_cls suffix h hne]
  simp

theorem Prefix.cls_ne_empty (pfx : Prefix) (suffix : String) (hne : suffix ≠ "") :
    pfx.cls suffix ≠ "" := by
  intro h0
  apply hne
  have := congrArg String.data h0
  simp [Prefix.cls, String.data_append] at this
  cases suffix
  simp_all

theorem classes_str_cls (pfx : Prefix) (suffix c : String)
    (h : suffix.data.all (fun c => !isSpace c) = true) (hne : suffix ≠ "") :
    (∃ k ∈ (ClassArg.value (.str (pfx.cls suffix))).classes, c ∈ classList k) ↔
      c = pfx.cls suffix := by
  simp [ClassArg.classes, pfx.cls_ne_empty suffix hne, pfx.mem_classList_cls suffix c h hne]

theorem classes_object (c : String) (entries : List (String × JSVal)) :
    (∃ k ∈ (ClassArg.object entries).classes, c ∈ classList k) ↔
      ∃ kv ∈ entries, kv.2.truthy = true ∧ c ∈ classList kv.1 := by
  simp only [ClassArg.classes, List.mem_map, List.mem_filter]
  constructor
  · rintro ⟨k, ⟨kv, ⟨hkv, ht⟩, rfl⟩, hc⟩
    exact ⟨kv, hkv, ht, hc⟩
  · rintro ⟨kv, hkv, ht, hc⟩
    exact ⟨kv.1, ⟨kv, ⟨hkv, ht⟩, rfl⟩, hc⟩

theorem StructuredListWrapper_attr_className (pfx : Prefix) (props : WrapperProps) :
    (StructuredListWrapper pfx props).attr "className" = .str (classNames
    [ .value (.str (pfx.cls "--structured-list")),
      .value (.ofString? props.className),
      .object
        [ (pfx.cls "--structured-list--selection", props.selection.withDefault (.bool false)),
          (pfx.cls "--structured-list--condensed", props.isCondensed.withDefault (.bool false)),
          (pfx.cls "--structured-list--flush",
            (props.isFlush.withDefault (.bool false)).and
              (props.selection.withDefault (.bool false)).not) ] ]) := by
  simp only [StructuredListWrapper]
  rw [Element.attr_append_left _ _ _ _ (by simp),
    Element.attr_append_left _ _ _ _ (objectRest_key_ne _ _ _ (by decide))]
  rfl

theorem mem_classList_StructuredListWrapper (pfx : Prefix) (props : WrapperProps) (c : String) :
    c ∈ (StructuredListWrapper pfx props).classList ↔
      c = pfx.cls "--structured-list" ∨
      c ∈ classList (props.className.getD "") ∨
      (props.selection.truthy = true ∧ c = pfx.cls "--structured-list--selection") ∨
      (props.isCondensed.truthy = true ∧ c = pfx.cls "--structured-list--condensed") ∨
      (props.isFlush.truthy = true ∧ props.selection.truthy = false ∧
        c = pfx.cls "--structured-list--flush") := by
  simp only [Element.classList, StructuredListWrapper_attr_className, mem_classList_classNames,
    List.mem_cons, List.mem_singleton, exists_eq_or_imp, List.not_mem_nil, false_and,
    exists_false, or_false, exists_eq_left, classes_ofString?, classes_object,
    truthy_withDefault_false, truthy_and, truthy_not, Bool.and_eq_true, Bool.not_eq_true']
  rw [classes_str_cls pfx _ c (by decide) (by decide),
    pfx.mem_classList_cls _ c (by decide) (by decide),
    pfx.mem_classList_cls _ c (by decide) (by decide),
    pfx.mem_classList_cls _ c (by decide) (by decide)]
  tauto

/-! ## The class lists of cells and rows -/

theorem truthy_bool (b : Bool) : (JSVal.bool b).truthy = b := rfl

theorem objectRest_subset (keys : List String) (attrs : Attrs) :
    ∀ kv ∈ objectRest keys attrs, kv ∈ attrs := by
  intro kv hkv
  exact (List.mem_filter.mp hkv).1

theorem StructuredListCell_attr_className (pfx : Prefix) (props : CellProps) :
    (StructuredListCell pfx props).attr "className" = .str (classNames
    [ .value (.ofString? props.className),
      .object
        [ (pfx.cls "--structured-list-th", props.head.withDefault (.bool false)),
          (pfx.cls "--structured-list-td", (props.head.withDefault (.bool false)).not),
          (pfx.cls "--structured-list-content--nowrap",
            props.noWrap.withDefault (.bool false)) ] ]) := by
  simp only [StructuredListCell]
  split
  · rw [Element.attr_append_left _ _ _ _ (objectRest_key_ne _ _ _ (by decide))]
    rfl
  · rw [Element.attr_append_left _ _ _ _ (objectRest_key_ne _ _ _ (by decide))]
    rfl

theorem mem_classList_StructuredListCell (pfx : Prefix) (props : CellProps) (c : String) :
    c ∈ (StructuredListCell pfx props).classList ↔
      c ∈ classList (props.className.getD "") ∨
      (props.head.truthy = true ∧ c = pfx.cls "--structured-list-th") ∨
      (props.head.truthy = false ∧ c = pfx.cls "--structured-list-td") ∨
      (props.noWrap.truthy = true ∧ c = pfx.cls "--structured-list-content--nowrap") := by
  simp only [Element.classList, StructuredListCell_attr_className, mem_classList_classNames,
    List.mem_cons, List.mem_singleton, exists_eq_or_imp, List.not_mem_nil, false_and,
    exists_false, or_false, exists_eq_left, classes_ofString?, classes_object,
    truthy_withDefault_false, truthy_not, Bool.not_eq_true']
  rw [pfx.mem_classList_cls _ c (by decide) (by decide),
    pfx.mem_classList_cls _ c (by decide) (by decide),
    pfx.mem_classList_cls _ c (by decide) (by decide)]

theorem StructuredListCell_attr_role (pfx : Prefix) (props : CellProps)
    (h : ∀ kv ∈ props.other, kv.1 ≠ "role") :
    (StructuredListCell pfx props).attr "role" =
      if props.head.truthy then .str "columnheader" else .str "cell" := by
  have hr : ∀ kv ∈ objectRest ["children", "className", "head", "noWrap"] props.other,
      kv.1 ≠ "role" := fun kv hkv => h kv (objectRest_subset _ _ kv hkv)
  simp only [StructuredListCell, StructuredListCell.defaultProps, truthy_withDefault_false]
  split
  · rw [Element.attr_append_left _ _ _ _ hr]; rfl
  · rw [Element.attr_append_left _ _ _ _ hr]; rfl

theorem StructuredListRow_attr_className (pfx : Prefix) (id : String) (hasFocusWithin : Bool)
    (selectedRow : JSVal) (props : RowProps) :
    (StructuredListRow pfx id hasFocusWithin selectedRow props).attr "className" =
      .str (classNames
    [ .value (.str (pfx.cls "--structured-list-row")),
      .value (.ofString? props.className),
      .object
        [ (pfx.cls "--structured-list-row--header-row", props.head.withDefault (.bool false)),
          (pfx.cls "--structured-list-row--focused-within", .bool hasFocusWithin),
          (selectedClass pfx, .bool (selectedRow.strictEq (.str id))) ] ]) := by
  simp only [StructuredListRow]
  split
  · rw [Element.attr_append_right _ _ _ _ ⟨_, List.mem_singleton_self _, rfl⟩]
    rfl
  · rw [Element.attr_append_right _ _ _ "className"
      ⟨("className", .str (classNames
        [ .value (.str (pfx.cls "--structured-list-row")),
          .value (.ofString? props.className),
          .object
            [ (pfx.cls "--structured-list-row--header-row",
                props.head.withDefault (.bool false)),
              (pfx.cls "--structured-list-row--focused-within", .bool hasFocusWithin),
              (selectedClass pfx, .bool (selectedRow.strictEq (.str id))) ] ])),
        by simp [StructuredListRow.defaultProps], rfl⟩]
    rfl

theorem mem_classList_StructuredListRow (pfx : Prefix) (id : String) (hasFocusWithin : Bool)
    (selectedRow : JSVal) (props : RowProps) (c : String) :
    c ∈ (StructuredListRow pfx id hasFocusWithin selectedRow props).classList ↔
      c = pfx.cls "--structured-list-row" ∨
      c ∈ classList (props.className.getD "") ∨
      (props.head.truthy = true ∧ c = pfx.cls "--structured-list-row--header-row") ∨
      (hasFocusWithin = true ∧ c = pfx.cls "--structured-list-row--focused-within") ∨
      (selectedRow = .str id ∧ c = selectedClass pfx) := by
  simp only [Element.classList, StructuredListRow_attr_className, mem_classList_classNames,
    List.mem_cons, List.mem_singleton, exists_eq_or_imp, List.not_mem_nil, false_and,
    exists_false, or_false, exists_eq_left, classes_ofString?, classes_object,
    truthy_withDefault_false, truthy_bool, JSVal.strictEq, decide_eq_true_eq, selectedClass]
  rw [classes_str_cls pfx _ c (by decide) (by decide),
    pfx.mem_classList_cls _ c (by decide) (by decide),
    pfx.mem_classList_cls _ c (by decide) (by decide),
    pfx.mem_classList_cls _ c (by decide) (by decide)]

/-- Whether a row carries the selected class, when its own `className` does not spell it. -/
theorem StructuredListRow_hasClass_selected (pfx : Prefix) (id : String) (hasFocusWithin : Bool)
    (selectedRow : JSVal) (props : RowProps)
    (h : selectedClass pfx ∉ classList (props.className.getD "")) :
    (StructuredListRow pfx id hasFocusWithin selectedRow props).hasClass (selectedClass pfx) = true
      ↔ selectedRow = .str id := by
  simp only [Element.hasClass, decide_eq_true_eq, mem_classList_StructuredListRow, h, false_or]
  simp only [selectedClass, pfx.cls_inj]
  simp

theorem StructuredListWrapper_attr_ariaLabel (pfx : Prefix) (props : WrapperProps) :
    (StructuredListWrapper pfx props).attr "aria-label" =
      (JSVal.ofString? props.ariaLabel).or
        (.ofString? (StructuredListWrapper.defaultProps props).aria_label) := by
  simp only [StructuredListWrapper]
  rw [Element.attr_append_right _ _ _ "aria-label" ⟨_, List.mem_singleton_self _, rfl⟩]
  rfl

/-- When `onChange` is not a function (in particular when it is not supplied), the change
handler of `StructuredListInput` sets the selected row to the event target's value and then
throws. -/
theorem handleChange_without_onChange (props : InputProps) (event : ChangeEvent)
    (h : props.onChange.callable = false) :
    StructuredListInput.handleChange props event =
      ([Effect.setSelectedRow (.str event.targetValue)],
        .error "TypeError: onChange is not a function") := by
  simp [StructuredListInput.handleChange, StructuredListInput.defaultProps, h]

/-- When `onChange` is a function, the change handler of `StructuredListInput` sets the
selected row to the event target's value, then calls `onChange` once with the event, and
completes. -/
theorem handleChange_with_onChange (props : InputProps) (event : ChangeEvent)
    (h : props.onChange.callable = true) :
    StructuredListInput.handleChange props event =
      ([Effect.setSelectedRow (.str event.targetValue), Effect.call props.onChange event],
        .ok ()) := by
  simp [StructuredListInput.handleChange, StructuredListInput.defaultProps, h]

theorem modify_map_key (f : RowInst → RowInst) (hf : ∀ r, ((f r).id, (f r).props) = (r.id, r.props))
    (rows : List RowInst) (i : Nat) :
    (rows.modify f i).map (fun r => (r.id, r.props)) = rows.map (fun r => (r.id, r.props)) := by
  apply List.ext_getElem?
  intro m
  rw [List.getElem?_map, List.getElem?_map, List.getElem?_modify]
  cases rows[m]? with
  | none => rfl
  | some r =>
    by_cases h : i = m
    · simp [h, hf]
    · simp [h]

theorem applyEffect_rows (s : ListState) (e : Effect) : (s.applyEffect e).rows = s.rows := by
  cases e <;> rfl

theorem foldl_applyEffect_rows (es : List Effect) (s : ListState) :
    (es.foldl ListState.applyEffect s).rows = s.rows := by
  induction es generalizing s with
  | nil => rfl
  | cons e es ih => rw [List.foldl_cons, ih, applyEffect_rows]

theorem runRowHandler_rowKeys (s : ListState) (i : Nat) (h : JSVal) :
    (s.runRowHandler i h).rowKeys = s.rowKeys := by
  cases h with
  | setFocusWithin b =>
    exact modify_map_key (fun r => { r with hasFocusWithin := b }) (fun _ => rfl) s.rows i
  | _ => rfl

theorem step_rowKeys (pfx : Prefix) (s : ListState) (e : Event) :
    (step pfx s e).rowKeys = s.rowKeys := by
  cases e with
  | click i =>
    simp only [step]
    split
    · rfl
    · exact runRowHandler_rowKeys _ _ _
  | focus i =>
    simp only [step]
    split
    · rfl
    · exact runRowHandler_rowKeys _ _ _
  | blur i =>
    simp only [step]
    split
    · rfl
    · exact runRowHandler_rowKeys _ _ _
  | change input event =>
    simp only [step, ListState.rowKeys, foldl_applyEffect_rows]

theorem run_rowKeys (pfx : Prefix) (events : List Event) (s : ListState) :
    (run pfx s events).rowKeys = s.rowKeys := by
  induction events generalizing s with
  | nil => rfl
  | cons e es ih =>
    show (run pfx (step pfx s e) es).rowKeys = s.rowKeys
    rw [ih, step_rowKeys]

theorem mount_rowKeys (wrapper : WrapperProps) (rows : List (String × RowProps)) :
    (mount wrapper rows).rowKeys = rows := by
  simp [mount, ListState.rowKeys, List.map_map, Function.comp_def]

/-- Among rows with pairwise distinct ids, none of whose `className` spells the selected
class, at most one carries the selected class, whatever `selectedRow` is. -/
theorem selected_rows_le_one (pfx : Prefix) (selectedRow : JSVal) (rows : List RowInst)
    (hids : (rows.map (fun r => r.id)).Nodup)
    (hcls : ∀ r ∈ rows, selectedClass pfx ∉ classList (r.props.className.getD "")) :
    ((rows.map (fun r => StructuredListRow pfx r.id r.hasFocusWithin selectedRow r.props)).filter
      (fun e => e.hasClass (selectedClass pfx))).length ≤ 1 := by
  induction rows with
  | nil => simp
  | cons r rs ih =>
    have hr := hcls r (List.mem_cons_self _ _)
    have hrs : ∀ q ∈ rs, selectedClass pfx ∉ classList (q.props.className.getD "") :=
      fun q hq => hcls q (List.mem_cons_of_mem _ hq)
    rw [List.map_cons, List.nodup_cons] at hids
    rw [List.map_cons, List.filter_cons]
    split
    · next hsel =>
      rw [StructuredListRow_hasClass_selected pfx _ _ _ _ hr] at hsel
      have hnil : (rs.map (fun r => StructuredListRow pfx r.id r.hasFocusWithin selectedRow
          r.props)).filter (fun e => e.hasClass (selectedClass pfx)) = [] := by
        rw [List.filter_eq_nil_iff]
        intro e he
        obtain ⟨q, hq, rfl⟩ := List.mem_map.mp he
        rw [StructuredListRow_hasClass_selected pfx _ _ _ _ (hrs q hq), hsel]
        intro hEq
        apply hids.1
        have : r.id = q.id := by injection hEq
        rw [this]
        exact List.mem_map.mpr ⟨q, hq, rfl⟩
      rw [hnil]
      simp
    · exact ih hids.2 hrs

theorem selectedCount_le_one (pfx : Prefix) (s : ListState)
    (hids : (s.rowKeys.map (fun r => r.1)).Nodup)
    (hcls : ∀ r ∈ s.rowKeys, selectedClass pfx ∉ classList (r.2.className.getD "")) :
    s.selectedCount pfx ≤ 1 := by
  apply selected_rows_le_one pfx s.selectedRow s.rows
  · simpa [ListState.rowKeys, List.map_map, Function.comp_def] using hids
  · intro r hr
    exact hcls (r.id, r.props) (List.mem_map.mpr ⟨r, hr, rfl⟩)

theorem StructuredListRow_attr_onClick (pfx : Prefix) (id : String) (hasFocusWithin : Bool)
    (selectedRow : JSVal) (props : RowProps) (h : props.head.truthy = false) :
    (StructuredListRow pfx id hasFocusWithin selectedRow props).attr "onClick" =
      .selectRow id := by
  simp only [StructuredListRow, StructuredListRow.defaultProps, truthy_withDefault_false, h,
    Bool.false_eq_true, if_false]
  rw [Element.attr_append_right _ _ _ "onClick" ⟨("onClick", .selectRow id), by simp, rfl⟩]
  rfl

theorem step_click (pfx : Prefix) (s : ListState) (i : Nat) (r : RowInst)
    (hr : s.rows[i]? = some r) (hhead : r.props.head.truthy = false) :
    step pfx s (.click i) = { s with selectedRow := .str r.id } := by
  simp only [step, hr, ListState.renderRow, StructuredListRow_attr_onClick _ _ _ _ _ hhead]
  rfl

theorem id_inj_of_nodup (rows : List RowInst) (hids : (rows.map (fun q => q.id)).Nodup)
    (i j : Nat) (r q : RowInst) (hr : rows[i]? = some r) (hq : rows[j]? = some q)
    (h : r.id = q.id) : i = j := by
  have h1 : (rows.map (fun q => q.id))[i]? = some r.id := by rw [List.getElem?_map, hr]; rfl
  have h2 : (rows.map (fun q => q.id))[j]? = some q.id := by rw [List.getElem?_map, hq]; rfl
  obtain ⟨hi, e1⟩ := List.getElem?_eq_some.mp h1
  obtain ⟨hj, e2⟩ := List.getElem?_eq_some.mp h2
  exact (hids.getElem_inj_iff).mp (by rw [e1, e2, h])

theorem StructuredListInput_attr_checked (pfx : Prefix) (defaultId : String)
    (row : Option String) (selectedRow : JSVal) (props : InputProps) :
    (StructuredListInput pfx defaultId row selectedRow props).attr "checked" =
      match row with
      | none => .null
      | some id => .bool ((JSVal.str id).strictEq selectedRow) := by
  cases row with
  | none =>
    simp only [StructuredListInput]
    rw [Element.attr_append_right _ _ _ "checked" ⟨("checked", .null), by simp, rfl⟩]
    rfl
  | some id =>
    simp only [StructuredListInput]
    rw [Element.attr_append_right _ _ _ "checked"
      ⟨("checked", .bool ((JSVal.str id).strictEq selectedRow)), by simp, rfl⟩]
    rfl

/-! ## The claims -/

/-- C1, as stated, fails: two rows with distinct non-empty ids whose caller passes the
selected class as `className` both carry it, already before any event. -/
theorem C1_two_rows_carry_selected_class :
    (preselectedRows.map (fun r => r.1)).Nodup ∧
      (∀ r ∈ preselectedRows, r.1 ≠ "") ∧
      (run cds (mount {} preselectedRows) []).selectedCount cds = 2 ∧
      ¬ (run cds (mount {} preselectedRows) []).selectedCount cds ≤ 1 := by
  decide

/-- C1, amended: in a list whose rows have pairwise distinct ids and none of whose rows is
given a `className` that itself spells `<prefix>--structured-list-row--selected`, after every
finite sequence of clicks, focus and blur events on rows and change events on inputs, applied
from the mounted state (`selectedRow` is `null`), at most one row carries that class. -/
theorem C1_at_most_one_row_selected (pfx : Prefix) (wrapper : WrapperProps)
    (rows : List (String × RowProps))
    (hids : (rows.map (fun r => r.1)).Nodup)
    (hcls : ∀ r ∈ rows, selectedClass pfx ∉ classList (r.2.className.getD ""))
    (events : List Event) :
    (run pfx (mount wrapper rows) events).selectedCount pfx ≤ 1 := by
  apply selectedCount_le_one
  · rw [run_rowKeys, mount_rowKeys]; exact hids
  · rw [run_rowKeys, mount_rowKeys]; exact hcls

/-- C1, amended, on a header row and two plain rows after five events. -/
theorem C1_at_most_one_row_selected_witness :
    (plainRows.map (fun r => r.1)).Nodup ∧
      (run cds (mount {} plainRows)
        [.click 1, .focus 2, .change {} ⟨"grid-input-2"⟩, .blur 2, .click 0]).selectedCount cds
          ≤ 1 :=
  ⟨by decide, C1_at_most_one_row_selected cds {} plainRows (by decide) (by decide) _⟩

/-- C2, as stated, fails: in a list of two non-head rows with distinct ids where the caller
passes the selected class as `className` on the second, after a click on the first row the
first carries the selected class and so does the second. -/
theorem C2_other_row_still_carries_class :
    (secondRowStyledSelected.map (fun r => r.1)).Nodup ∧
      (∀ r ∈ secondRowStyledSelected, r.2.head.truthy = false) ∧
      ((step cds (mount {} secondRowStyledSelected) (.click 0)).renderRows cds).map
        (fun e => e.hasClass (selectedClass cds)) = [true, true] := by
  decide

/-- C2, amended: for every prior state of a list whose rows have pairwise distinct ids
(whatever `selectedRow` is) and every non-head row `r` of it, after a click on `r` the row
`r` is still the row at its position and carries `<prefix>--structured-list-row--selected`,
and no other row carries it unless its own `className` itself spells that class. -/
theorem C2_click_selects_exactly_that_row (pfx : Prefix) (s : ListState) (i : Nat)
    (r : RowInst) (hr : s.rows[i]? = some r) (hhead : r.props.head.truthy = false)
    (hids : (s.rows.map (fun q => q.id)).Nodup) :
    (step pfx s (.click i)).rows[i]? = some r ∧
    ∀ j q, (step pfx s (.click i)).rows[j]? = some q →
      (j = i →
        ((step pfx s (.click i)).renderRow pfx q).hasClass (selectedClass pfx) = true) ∧
      (j ≠ i → selectedClass pfx ∉ classList (q.props.className.getD "") →
        ((step pfx s (.click i)).renderRow pfx q).hasClass (selectedClass pfx) = false) := by
  rw [step_click pfx s i r hr hhead]
  refine ⟨hr, ?_⟩
  intro j q hq
  have hq2 : s.rows[j]? = some q := hq
  constructor
  · intro hji
    rw [hji, hr] at hq2
    have hrq : r = q := by injection hq2
    rw [← hrq]
    simp [ListState.renderRow, Element.hasClass, mem_classList_StructuredListRow]
  · intro hji hcls
    rw [← Bool.not_eq_true, ListState.renderRow,
      StructuredListRow_hasClass_selected pfx _ _ _ _ hcls]
    intro hEq
    apply hji
    have he : r.id = q.id := by injection hEq
    exact (id_inj_of_nodup s.rows hids i j r q hr hq2 he).symm

/-- C2, amended, on a list whose last row is selected, at a click on its middle row: the
middle row carries the selected class and the last row no longer does. -/
theorem C2_click_selects_exactly_that_row_witness :
    listWithSecondSelected.selectedRow = .str "grid-input-2" ∧
      ((step cds listWithSecondSelected (.click 1)).renderRow cds
        { id := "grid-input-1", props := {} }).hasClass (selectedClass cds) = true ∧
      ((step cds listWithSecondSelected (.click 1)).renderRow cds
        { id := "grid-input-2", props := { className := some "tall" } }).hasClass
          (selectedClass cds) = false :=
  ⟨by decide,
    ((C2_click_selects_exactly_that_row cds listWithSecondSelected 1
      { id := "grid-input-1", props := {} } (by decide) (by decide) (by decide)).2
        1 _ (by decide)).1 rfl,
    ((C2_click_selects_exactly_that_row cds listWithSecondSelected 1
      { id := "grid-input-1", props := {} } (by decide) (by decide) (by decide)).2
        2 _ (by decide)).2 (by decide) (by decide)⟩

/-- C3, as stated, fails: attributes of the caller are spread after `role="table"`, so a
`role` among them replaces it.  With `role="list"` passed along, the root node has role
"list", not "table". -/
theorem C3_role_replaced_by_spread :
    (StructuredListWrapper cds roleListProps).attr "role" = .str "list" ∧
      ¬ (StructuredListWrapper cds roleListProps).attr "role" = .str "table" := by
  decide

/-- C3, amended: for every props of `StructuredListWrapper` whose remaining attributes hold
no `role` key, the root node has role "table". -/
theorem C3_role_table (pfx : Prefix) (props : WrapperProps)
    (h : ∀ kv ∈ props.other, kv.1 ≠ "role") :
    (StructuredListWrapper pfx props).attr "role" = .str "table" := by
  have hr : ∀ kv ∈ objectRest
      ["children", "selection", "className", "aria-label", "ariaLabel", "isCondensed", "isFlush"]
      (StructuredListWrapper.defaultProps props).other, kv.1 ≠ "role" :=
    fun kv hkv => h kv (objectRest_subset _ _ kv hkv)
  simp only [StructuredListWrapper]
  rw [Element.attr_append_left _ _ _ _ (by simp), Element.attr_append_left _ _ _ _ hr]
  rfl

/-- C3, amended, on a wrapper whose remaining attributes hold a test id only. -/
theorem C3_role_table_witness :
    (∀ kv ∈ flushProps.other, kv.1 ≠ "role") ∧
      (StructuredListWrapper cds flushProps).attr "role" = .str "table" :=
  ⟨by decide, C3_role_table cds flushProps (by decide)⟩

/-- C4, as stated, fails: a header cell whose caller passes the body-cell class as
`className` has no `role` or `className` among its remaining attributes and is emitted with
role "columnheader", yet its class list contains `cds--structured-list-td`. -/
theorem C4_head_cell_with_td_class :
    (∀ kv ∈ headCellWithTdClass.other, kv.1 ≠ "role" ∧ kv.1 ≠ "className") ∧
      headCellWithTdClass.head.truthy = true ∧
      (StructuredListCell cds headCellWithTdClass).attr "role" = .str "columnheader" ∧
      (StructuredListCell cds headCellWithTdClass).hasClass (cds.cls "--structured-list-td")
        = true := by
  decide

/-- C4, amended: for every props of `StructuredListCell` whose remaining attributes hold no
`role` key and whose `className` spells neither `<prefix>--structured-list-th` nor
`<prefix>--structured-list-td`: when `head` is truthy the role is "columnheader" and the
class list contains the `th` class and not the `td` class; when `head` is falsy (the default
included) the role is "cell" and the class list contains the `td` class and not the `th`
class. -/
theorem C4_cell_role_and_class (pfx : Prefix) (props : CellProps)
    (hrole : ∀ kv ∈ props.other, kv.1 ≠ "role")
    (hth : pfx.cls "--structured-list-th" ∉ classList (props.className.getD ""))
    (htd : pfx.cls "--structured-list-td" ∉ classList (props.className.getD "")) :
    (props.head.truthy = true →
      (StructuredListCell pfx props).attr "role" = .str "columnheader" ∧
      (StructuredListCell pfx props).hasClass (pfx.cls "--structured-list-th") = true ∧
      (StructuredListCell pfx props).hasClass (pfx.cls "--structured-list-td") = false) ∧
    (props.head.truthy = false →
      (StructuredListCell pfx props).attr "role" = .str "cell" ∧
      (StructuredListCell pfx props).hasClass (pfx.cls "--structured-list-td") = true ∧
      (StructuredListCell pfx props).hasClass (pfx.cls "--structured-list-th") = false) := by
  have e1 : ¬ ("--structured-list-th" = "--structured-list-td") := by decide
  have e2 : ¬ ("--structured-list-td" = "--structured-list-th") := by decide
  have e3 : ¬ ("--structured-list-th" = "--structured-list-content--nowrap") := by decide
  have e4 : ¬ ("--structured-list-td" = "--structured-list-content--nowrap") := by decide
  constructor
  · intro hh
    refine ⟨?_, ?_, ?_⟩
    · rw [StructuredListCell_attr_role pfx props hrole, if_pos hh]
    · simp [Element.hasClass, mem_classList_StructuredListCell, hh]
    · simp [Element.hasClass, mem_classList_StructuredListCell, hh, htd, pfx.cls_inj, e2, e4]
  · intro hh
    refine ⟨?_, ?_, ?_⟩
    · rw [StructuredListCell_attr_role pfx props hrole, if_neg (by simp [hh])]
    · simp [Element.hasClass, mem_classList_StructuredListCell, hh]
    · simp [Element.hasClass, mem_classList_StructuredListCell, hh, hth, pfx.cls_inj, e1, e3]

/-- C4, amended, on a header cell with a class of the caller and a test id. -/
theorem C4_cell_role_and_class_witness :
    headCell.head.truthy = true ∧
      (StructuredListCell cds headCell).attr "role" = .str "columnheader" ∧
      (StructuredListCell cds headCell).hasClass (cds.cls "--structured-list-th") = true ∧
      (StructuredListCell cds headCell).hasClass (cds.cls "--structured-list-td") = false :=
  ⟨by decide,
    (C4_cell_role_and_class cds headCell (by decide) (by decide) (by decide)).1 (by decide)⟩

/-- C5, at the failing input: a list whose wrapper is given no `selection` prop, so that
`defaultProps` makes it `false` and the root does not carry the selection class, with one
plain row.  After a click on that row the row carries the selected class, and a
`StructuredListInput` inside it is rendered checked: the list has a selection although
`selection` is `false`. -/
theorem C5_row_selected_without_selection :
    (StructuredListWrapper.defaultProps listWithoutSelection.wrapper).selection = .bool false ∧
      (StructuredListWrapper cds listWithoutSelection.wrapper).hasClass
        (cds.cls "--structured-list--selection") = false ∧
      ((run cds listWithoutSelection [.click 0]).renderRows cds).map
        (fun e => e.hasClass (selectedClass cds)) = [true] ∧
      (StructuredListInput cds "input-1" (StructuredListRow.context "grid-input-1" {})
        (run cds listWithoutSelection [.click 0]).selectedRow {}).attr "checked" = .bool true := by
  decide

/-- C6: for every props of `StructuredListWrapper` whose `className` spells neither the flush
class nor the selection class, the emitted class list contains
`<prefix>--structured-list--flush` exactly when `isFlush` is truthy and `selection` is falsy,
and whenever it contains `<prefix>--structured-list--selection` it does not contain the flush
class. -/
theorem C6_flush_excluded_by_selection (pfx : Prefix) (props : WrapperProps)
    (hflush : pfx.cls "--structured-list--flush" ∉ classList (props.className.getD ""))
    (hsel : pfx.cls "--structured-list--selection" ∉ classList (props.className.getD "")) :
    ((StructuredListWrapper pfx props).hasClass (pfx.cls "--structured-list--flush") = true ↔
      props.isFlush.truthy = true ∧ props.selection.truthy = false) ∧
    ((StructuredListWrapper pfx props).hasClass (pfx.cls "--structured-list--selection") = true →
      (StructuredListWrapper pfx props).hasClass (pfx.cls "--structured-list--flush") = false) := by
  have e1 : ¬ ("--structured-list--flush" = "--structured-list") := by decide
  have e2 : ¬ ("--structured-list--flush" = "--structured-list--selection") := by decide
  have e3 : ¬ ("--structured-list--flush" = "--structured-list--condensed") := by decide
  have e4 : ¬ ("--structured-list--selection" = "--structured-list") := by decide
  have e5 : ¬ ("--structured-list--selection" = "--structured-list--condensed") := by decide
  have e6 : ¬ ("--structured-list--selection" = "--structured-list--flush") := by decide
  have hF : (StructuredListWrapper pfx props).hasClass (pfx.cls "--structured-list--flush") = true ↔
      props.isFlush.truthy = true ∧ props.selection.truthy = false := by
    simp [Element.hasClass, mem_classList_StructuredListWrapper, hflush, pfx.cls_inj, e1, e2, e3]
  have hS : (StructuredListWrapper pfx props).hasClass (pfx.cls "--structured-list--selection") = true ↔
      props.selection.truthy = true := by
    simp [Element.hasClass, mem_classList_StructuredListWrapper, hsel, pfx.cls_inj, e4, e5, e6]
  refine ⟨hF, ?_⟩
  intro h
  rw [hS] at h
  rw [← Bool.not_eq_true, hF]
  simp [h]

/-- C6 on a flush wrapper with two classes of the caller. -/
theorem C6_flush_excluded_by_selection_witness :
    cds.cls "--structured-list--flush" ∉ classList (flushProps.className.getD "") ∧
      cds.cls "--structured-list--selection" ∉ classList (flushProps.className.getD "") ∧
      (StructuredListWrapper cds flushProps).hasClass (cds.cls "--structured-list--flush") = true :=
  ⟨by decide, by decide,
    (C6_flush_excluded_by_selection cds flushProps (by decide) (by decide)).1.mpr (by decide)⟩

/-- C7: the `aria-label` on the root node of `StructuredListWrapper` is the deprecated
`ariaLabel` prop when that is a non-empty string; otherwise it is the `aria-label` prop,
which is 'Structured list section' when the caller does not supply it; and it is the same
whatever the remaining attributes `...other` are. -/
theorem C7_aria_label (pfx : Prefix) (props : WrapperProps) :
    (∀ s, props.ariaLabel = some s → s ≠ "" →
      (StructuredListWrapper pfx props).attr "aria-label" = .str s) ∧
    ((props.ariaLabel = none ∨ props.ariaLabel = some "") →
      (StructuredListWrapper pfx props).attr "aria-label" =
        .str (props.aria_label.getD "Structured list section")) ∧
    (∀ other : Attrs,
      (StructuredListWrapper pfx { props with other := other }).attr "aria-label" =
        (StructuredListWrapper pfx props).attr "aria-label") := by
  refine ⟨?_, ?_, ?_⟩
  · intro s hs hne
    rw [StructuredListWrapper_attr_ariaLabel, hs]
    simp [JSVal.ofString?, JSVal.or, JSVal.truthy, hne]
  · intro h
    rw [StructuredListWrapper_attr_ariaLabel]
    have hd : (StructuredListWrapper.defaultProps props).aria_label =
        some (props.aria_label.getD "Structured list section") := by
      simp only [StructuredListWrapper.defaultProps]
      cases props.aria_label <;> rfl
    rw [hd]
    rcases h with h | h <;> rw [h] <;> simp [JSVal.ofString?, JSVal.or, JSVal.truthy]
  · intro other
    rw [StructuredListWrapper_attr_ariaLabel, StructuredListWrapper_attr_ariaLabel]
    rfl

/-- C7 on a wrapper given both spellings of the label and a stray `aria-label`. -/
theorem C7_aria_label_witness :
    labelledProps.ariaLabel = some "Old label" ∧
      (StructuredListWrapper cds labelledProps).attr "aria-label" = .str "Old label" :=
  ⟨rfl, (C7_aria_label cds labelledProps).1 "Old label" rfl (by decide)⟩

/-- C8, at the failing input: a `StructuredListInput` whose props supply no `onChange` gets
none from `defaultProps`; its change handler sets the selected row to the event target's
value and then throws a `TypeError` instead of completing. -/
theorem C8_change_without_onChange_throws :
    (StructuredListInput.defaultProps {}).onChange = .undefined ∧
      (StructuredListInput cds "input-1" (some "grid-input-1") .null {}).attr "onChange" =
        .inputChange .undefined ∧
      StructuredListInput.handleChange {} ⟨"grid-input-1"⟩ =
        ([Effect.setSelectedRow (.str "grid-input-1")],
          .error "TypeError: onChange is not a function") :=
  ⟨by decide, by decide, rfl⟩

end Carbon
